import Mathlib

set_option autoImplicit false

namespace SmartGallery

/-- Theme values as in the `ColorScheme` type of the UI-state context
(`'light' | 'dark'`). -/
inductive ColorScheme where
  | light
  | dark
deriving DecidableEq, Repr

/-- Combined in-memory state of the collection state manager: the
`favorites` and `deletedItems` React state of the image grid, the
`hiddenImages`, `hasPasscode`, `theme` and `isTabBarVisible` React state of
the UI-state context, the persisted passcode value (the content of the
`smartgallery_hidden_passcode` key, `none` when absent) and the persisted
theme preference (the content of the `smartgallery_theme_preference` key).
The three identifier lists mirror both the React state and the persisted
JSON arrays, which the code keeps in sync by writing the full list after
every mutation. -/
structure GalleryState where
  favorites : List String
  deletedItems : List String
  hiddenImages : List String
  passcode : Option String
  hasPasscodeFlag : Bool
  theme : ColorScheme
  storedTheme : Option ColorScheme
  isTabBarVisible : Bool
deriving DecidableEq, Repr

/-- State on first launch: empty sets, no passcode, dark theme default,
no stored theme preference, tab bar visible. -/
def initialState : GalleryState :=
  { favorites := []
    deletedItems := []
    hiddenImages := []
    passcode := none
    hasPasscodeFlag := false
    theme := ColorScheme.dark
    storedTheme := none
    isTabBarVisible := true }

/-- Image grid `toggleFavorite`: if `favorites.includes(assetId)` then
`favorites.filter(id => id !== assetId)` else `[...favorites, assetId]`;
the new list is stored and persisted. -/
def toggleFavorite (assetId : String) (s : GalleryState) : GalleryState :=
  if s.favorites.contains assetId then
    { s with favorites := s.favorites.filter (fun id => id != assetId) }
  else
    { s with favorites := s.favorites ++ [assetId] }

/-- Image grid `addMultipleToFavorites`: starts from a copy of `favorites`,
records `selectedCount = selectedItems.length` before anything else, pushes
each selected id not already contained in the growing list, then reports
`selectedCount` in the success toast. Returns the new state together with
the count reported to the user. -/
def addMultipleToFavorites (selectedItems : List String) (s : GalleryState) :
    GalleryState × Nat :=
  let newFavorites := selectedItems.foldl
    (fun acc id => if acc.contains id then acc else acc ++ [id]) s.favorites
  ({ s with favorites := newFavorites }, selectedItems.length)

/-- Image grid `markAsDeleted`: `[...deletedItems, assetId]` is stored and
persisted, with no membership check and no change to favorites. -/
def markAsDeleted (assetId : String) (s : GalleryState) : GalleryState :=
  { s with deletedItems := s.deletedItems ++ [assetId] }

/-- Image viewer `moveToDeleted`: pushes `asset.id` onto the persisted
deleted list only when not already there, and, when `isFavorite` holds
(the flag `checkFavoriteStatus` computed as `favorites.includes(asset.id)`),
filters `asset.id` out of the persisted favorites list. -/
def moveToDeleted (assetId : String) (s : GalleryState) : GalleryState :=
  let newDeleted :=
    if s.deletedItems.contains assetId then s.deletedItems
    else s.deletedItems ++ [assetId]
  let newFavorites :=
    if s.favorites.contains assetId then
      s.favorites.filter (fun id => id != assetId)
    else s.favorites
  { s with deletedItems := newDeleted, favorites := newFavorites }

/-- Image grid `moveMultipleToDeleted`: pushes each selected id not already
contained onto the deleted list, then filters each selected id out of the
favorites list; reports `selectedCount = selectedItems.length` in the
toast. -/
def moveMultipleToDeleted (selectedItems : List String) (s : GalleryState) :
    GalleryState × Nat :=
  let newDeletedItems := selectedItems.foldl
    (fun acc id => if acc.contains id then acc else acc ++ [id]) s.deletedItems
  let newFavorites := selectedItems.foldl
    (fun acc id => if acc.contains id then acc.filter (fun x => x != id) else acc)
    s.favorites
  ({ s with deletedItems := newDeletedItems, favorites := newFavorites },
    selectedItems.length)

/-- Image grid `restoreFromDeleted`: `deletedItems.filter(id => id !== assetId)`
is stored and persisted; nothing else is touched. -/
def restoreFromDeleted (assetId : String) (s : GalleryState) : GalleryState :=
  { s with deletedItems := s.deletedItems.filter (fun id => id != assetId) }

/-- UI-state context `addToHidden`:
`[...hiddenImages, ...imageIds.filter(id => !hiddenImages.includes(id))]` —
the filter tests each incoming id against the OLD hidden list only. -/
def addToHidden (imageIds : List String) (s : GalleryState) : GalleryState :=
  { s with hiddenImages :=
      s.hiddenImages ++ imageIds.filter (fun id => !(s.hiddenImages.contains id)) }

/-- UI-state context `removeFromHidden`:
`hiddenImages.filter(id => id !== imageId)`. -/
def removeFromHidden (imageId : String) (s : GalleryState) : GalleryState :=
  { s with hiddenImages := s.hiddenImages.filter (fun id => id != imageId) }

/-- UI-state context `toggleTheme`: computes
`newTheme = theme === 'dark' ? 'light' : 'dark'`, sets the React state and
persists `newTheme` under the theme key; its body has no return statement,
so the promise resolves with no value, modelled as `none`. -/
def toggleTheme (s : GalleryState) : GalleryState × Option ColorScheme :=
  let newTheme : ColorScheme :=
    if s.theme = ColorScheme.dark then ColorScheme.light else ColorScheme.dark
  ({ s with theme := newTheme, storedTheme := some newTheme }, none)

/-- UI-state context `setTabBarVisible`. -/
def setTabBarVisible (visible : Bool) (s : GalleryState) : GalleryState :=
  { s with isTabBarVisible := visible }

/-- UI-state context `setPasscode`: stores the passcode string verbatim under
the passcode key and sets the `hasPasscode` flag. -/
def setPasscode (passcode : String) (s : GalleryState) : GalleryState :=
  { s with passcode := some passcode, hasPasscodeFlag := true }

/-- UI-state context `resetPasscode`: removes the passcode key and clears the
`hasPasscode` flag. -/
def resetPasscode (s : GalleryState) : GalleryState :=
  { s with passcode := none, hasPasscodeFlag := false }

/-- UI-state context `hasPasscode` boolean exposed to consumers. -/
def hasPasscode (s : GalleryState) : Bool := s.hasPasscodeFlag

/-- UI-state context `verifyPasscode`: reads the stored passcode (which is
`null`, i.e. `none`, when absent) and returns `storedPasscode === passcode`;
a JavaScript strict comparison of `null` against any string is `false`. -/
def verifyPasscode (passcode : String) (s : GalleryState) : Bool :=
  s.passcode == some passcode

/-- Outcome delivered to a caller awaiting `setPasscode` when the underlying
persistence write finishes with `writeResult`: the try/catch logs a write
failure and falls through, so the promise resolves normally either way
(`setHasPasscode(true)` runs only on the success path, but no error escapes). -/
def setPasscodeOutcome (writeResult : Except String Unit) : Except String Unit :=
  match writeResult with
  | Except.ok _ => Except.ok ()
  | Except.error _ => Except.ok ()

/-- Outcome delivered to a caller awaiting `resetPasscode` when the underlying
persistence removal finishes with `removeResult`: as with `setPasscode`, the
catch block only logs, so the promise resolves normally either way. -/
def resetPasscodeOutcome (removeResult : Except String Unit) : Except String Unit :=
  match removeResult with
  | Except.ok _ => Except.ok ()
  | Except.error _ => Except.ok ()

/-- UI-state context `verifyPasscode` with an explicit persistence-read
outcome: on a successful read it compares the stored value with the supplied
passcode; when the read throws, the catch block returns `false`. -/
def verifyPasscodeWith (readResult : Except String (Option String))
    (passcode : String) : Bool :=
  match readResult with
  | Except.ok stored => stored == some passcode
  | Except.error _ => false

/-- Image grid `loadImages` filtering step (the category branch over the
fetched asset sequence): favorites/deleted/hidden keep the assets whose id the
respective list includes, `all` keeps those in neither the deleted nor the
hidden list, `people` keeps every third asset, and any other category leaves
the sequence unchanged. Assets are represented by their identifier strings,
which is all the filter inspects. -/
def filterByCategory (category : String) (assets : List String)
    (s : GalleryState) : List String :=
  if category = "favorites" then
    assets.filter (fun id => s.favorites.contains id)
  else if category = "deleted" then
    assets.filter (fun id => s.deletedItems.contains id)
  else if category = "hidden" then
    assets.filter (fun id => s.hiddenImages.contains id)
  else if category = "all" then
    assets.filter (fun id =>
      !(s.deletedItems.contains id) && !(s.hiddenImages.contains id))
  else if category = "people" then
    (assets.enum.filter (fun p => p.1 % 3 == 0)).map (fun p => p.2)
  else
    assets

/-- One user-level mutation of the three identifier sets, corresponding to the
operations of the image grid, image viewer and UI-state context. -/
inductive Op where
  | toggleFav (assetId : String)
  | addManyFav (selectedItems : List String)
  | markDel (assetId : String)
  | viewerMoveDel (assetId : String)
  | moveManyDel (selectedItems : List String)
  | restoreDel (assetId : String)
  | addHidden (imageIds : List String)
  | removeHidden (imageId : String)
deriving DecidableEq, Repr

/-- Effect of one operation on the combined state (the reported toast counts
are discarded). -/
def applyOp : Op → GalleryState → GalleryState
  | Op.toggleFav a, s => toggleFavorite a s
  | Op.addManyFav ids, s => (addMultipleToFavorites ids s).1
  | Op.markDel a, s => markAsDeleted a s
  | Op.viewerMoveDel a, s => moveToDeleted a s
  | Op.moveManyDel ids, s => (moveMultipleToDeleted ids s).1
  | Op.restoreDel a, s => restoreFromDeleted a s
  | Op.addHidden ids, s => addToHidden ids s
  | Op.removeHidden a, s => removeFromHidden a s

/-- Run a sequence of operations from left to right. -/
def runOps (ops : List Op) (s : GalleryState) : GalleryState :=
  ops.foldl (fun st op => applyOp op st) s

/-- The no-duplicates invariant over the three identifier lists. -/
def SetsNodup (s : GalleryState) : Prop :=
  s.favorites.Nodup ∧ s.deletedItems.Nodup ∧ s.hiddenImages.Nodup

instance (s : GalleryState) : Decidable (SetsNodup s) := by
  unfold SetsNodup; infer_instance

/-- Guard under which an operation preserves the no-duplicates invariant:
`markAsDeleted` must not be applied to an identifier already in the deleted
list (it appends unconditionally), and `addToHidden` must not receive a
duplicated input list (its filter tests only against the old hidden list).
All other operations need no guard. -/
def guardedOp : Op → GalleryState → Prop
  | Op.markDel a, s => a ∉ s.deletedItems
  | Op.addHidden ids, _ => ids.Nodup
  | _, _ => True

/-- A run of operations in which every step satisfies its guard in the state
where it executes. -/
inductive GuardedRun : GalleryState → List Op → Prop where
  | nil (s : GalleryState) : GuardedRun s []
  | cons {s : GalleryState} {op : Op} {ops : List Op} :
      guardedOp op s → GuardedRun (applyOp op s) ops → GuardedRun s (op :: ops)

instance (op : Op) (s : GalleryState) : Decidable (guardedOp op s) := by
  cases op <;> (unfold guardedOp; infer_instance)

/-- Iterate `toggleFavorite` on the same asset identifier `n` times. -/
def toggleFavoriteIter (a : String) : Nat → GalleryState → GalleryState
  | 0, s => s
  | n + 1, s => toggleFavoriteIter a n (toggleFavorite a s)

theorem contains_eq_true_iff {l : List String} {a : String} :
    l.contains a = true ↔ a ∈ l := List.elem_iff

theorem nodup_append_singleton {l : List String} {a : String}
    (hl : l.Nodup) (ha : a ∉ l) : (l ++ [a]).Nodup := by
  simp [List.nodup_append, hl, ha]

theorem mem_filter_bne {l : List String} {a x : String} :
    x ∈ l.filter (fun id => id != a) ↔ x ∈ l ∧ x ≠ a := by
  simp [List.mem_filter, bne_iff_ne]

/-- Membership after the add-if-absent fold used by `addMultipleToFavorites`
and `moveMultipleToDeleted`. -/
theorem mem_addIfAbsent_foldl (ids : List String) :
    ∀ (l : List String) (x : String),
      x ∈ ids.foldl (fun acc id => if acc.contains id then acc else acc ++ [id]) l ↔
        x ∈ l ∨ x ∈ ids := by
  induction ids with
  | nil => simp
  | cons y ys ih =>
      intro l x
      simp only [List.foldl_cons, List.mem_cons]
      by_cases h : l.contains y = true
      · have hy : y ∈ l := contains_eq_true_iff.mp h
        rw [if_pos h, ih]
        constructor
        · rintro (hxl | hxys)
          · exact Or.inl hxl
          · exact Or.inr (Or.inr hxys)
        · rintro (hxl | rfl | hxys)
          · exact Or.inl hxl
          · exact Or.inl hy
          · exact Or.inr hxys
      · rw [if_neg h, ih]
        simp only [List.mem_append, List.mem_singleton]
        tauto

/-- The add-if-absent fold preserves the no-duplicates property. -/
theorem nodup_addIfAbsent_foldl (ids : List String) :
    ∀ l : List String, l.Nodup →
      (ids.foldl (fun acc id => if acc.contains id then acc else acc ++ [id]) l).Nodup := by
  induction ids with
  | nil => intro l hl; exact hl
  | cons y ys ih =>
      intro l hl
      simp only [List.foldl_cons]
      by_cases h : l.contains y = true
      · rw [if_pos h]; exact ih l hl
      · have hy : y ∉ l := fun hm => h (contains_eq_true_iff.mpr hm)
        rw [if_neg h]; exact ih _ (nodup_append_singleton hl hy)

/-- Membership after the remove-each fold on favorites used by
`moveMultipleToDeleted`. -/
theorem mem_removeEach_foldl (ids : List String) :
    ∀ (l : List String) (x : String),
      x ∈ ids.foldl
        (fun acc id => if acc.contains id then acc.filter (fun y => y != id) else acc) l ↔
        x ∈ l ∧ x ∉ ids := by
  induction ids with
  | nil => simp
  | cons y ys ih =>
      intro l x
      simp only [List.foldl_cons, List.mem_cons]
      have hstep : ∀ z : String,
          z ∈ (if l.contains y then l.filter (fun w => w != y) else l) ↔
            z ∈ l ∧ z ≠ y := by
        intro z
        by_cases h : l.contains y = true
        · rw [if_pos h]; exact mem_filter_bne
        · have hy : y ∉ l := fun hm => h (contains_eq_true_iff.mpr hm)
          rw [if_neg h]
          constructor
          · intro hz
            refine ⟨hz, ?_⟩
            rintro rfl; exact hy hz
          · exact fun hz => hz.1
      rw [ih, hstep]
      constructor
      · rintro ⟨⟨hzl, hzy⟩, hzys⟩
        exact ⟨hzl, by rintro (rfl | hm) <;> [exact hzy rfl; exact hzys hm]⟩
      · rintro ⟨hzl, hna⟩
        exact ⟨⟨hzl, fun he => hna (Or.inl he)⟩, fun hm => hna (Or.inr hm)⟩

/-- The remove-each fold preserves the no-duplicates property. -/
theorem nodup_removeEach_foldl (ids : List String) :
    ∀ l : List String, l.Nodup →
      (ids.foldl
        (fun acc id => if acc.contains id then acc.filter (fun y => y != id) else acc) l).Nodup := by
  induction ids with
  | nil => intro l hl; exact hl
  | cons y ys ih =>
      intro l hl
      simp only [List.foldl_cons]
      by_cases h : l.contains y = true
      · rw [if_pos h]; exact ih _ (hl.filter _)
      · rw [if_neg h]; exact ih _ hl

/-- The list built by `addToHidden` has no duplicates when the old hidden list
and the input list each have none. -/
theorem nodup_addToHidden {hidden ids : List String}
    (hh : hidden.Nodup) (hids : ids.Nodup) :
    (hidden ++ ids.filter (fun id => !(hidden.contains id))).Nodup := by
  rw [List.nodup_append]
  refine ⟨hh, hids.filter _, ?_⟩
  intro x hx hx'
  have hcond := List.of_mem_filter hx'
  simp only [Bool.not_eq_true'] at hcond
  rw [contains_eq_true_iff.mpr hx] at hcond
  exact Bool.noConfusion hcond

/-- Every guarded operation preserves the no-duplicates invariant. -/
theorem applyOp_sets_nodup {op : Op} {s : GalleryState}
    (hg : guardedOp op s) (hs : SetsNodup s) : SetsNodup (applyOp op s) := by
  obtain ⟨hf, hd, hh⟩ := hs
  cases op with
  | toggleFav a =>
      simp only [applyOp, toggleFavorite]
      by_cases h : s.favorites.contains a = true
      · simp only [if_pos h]
        exact ⟨hf.filter _, hd, hh⟩
      · simp only [if_neg h]
        exact ⟨nodup_append_singleton hf (fun hm => h (contains_eq_true_iff.mpr hm)),
          hd, hh⟩
  | addManyFav ids =>
      exact ⟨nodup_addIfAbsent_foldl ids _ hf, hd, hh⟩
  | markDel a =>
      exact ⟨hf, nodup_append_singleton hd hg, hh⟩
  | viewerMoveDel a =>
      simp only [applyOp, moveToDeleted]
      refine ⟨?_, ?_, hh⟩
      · by_cases h : s.favorites.contains a = true
        · simp only [if_pos h]; exact hf.filter _
        · simp only [if_neg h]; exact hf
      · by_cases h : s.deletedItems.contains a = true
        · simp only [if_pos h]; exact hd
        · simp only [if_neg h]
          exact nodup_append_singleton hd (fun hm => h (contains_eq_true_iff.mpr hm))
  | moveManyDel ids =>
      exact ⟨nodup_removeEach_foldl ids _ hf, nodup_addIfAbsent_foldl ids _ hd, hh⟩
  | restoreDel a =>
      exact ⟨hf, hd.filter _, hh⟩
  | addHidden ids =>
      exact ⟨hf, hd, nodup_addToHidden hh hg⟩
  | removeHidden a =>
      exact ⟨hf, hd, hh.filter _⟩

/-- A guarded run from a duplicate-free state stays duplicate-free. -/
theorem guardedRun_sets_nodup {s : GalleryState} {ops : List Op}
    (hrun : GuardedRun s ops) (hs : SetsNodup s) : SetsNodup (runOps ops s) := by
  induction hrun with
  | nil s => exact hs
  | cons hg _ ih => exact ih (applyOp_sets_nodup hg hs)

theorem contains_eq_false_iff {l : List String} {a : String} :
    l.contains a = false ↔ a ∉ l := by
  constructor
  · intro h hm
    rw [contains_eq_true_iff.mpr hm] at h
    exact Bool.noConfusion h
  · intro h
    cases hc : l.contains a with
    | false => rfl
    | true => exact absurd (contains_eq_true_iff.mp hc) h

/-- One `toggleFavorite` call flips the membership of its own argument. -/
theorem toggleFavorite_mem_flip (a : String) (s : GalleryState) :
    a ∈ (toggleFavorite a s).favorites ↔ a ∉ s.favorites := by
  by_cases h : s.favorites.contains a = true
  · have ha := contains_eq_true_iff.mp h
    simp only [toggleFavorite, if_pos h]
    simp [mem_filter_bne, ha]
  · have ha : a ∉ s.favorites := fun hm => h (contains_eq_true_iff.mpr hm)
    simp only [toggleFavorite, if_neg h]
    simp [ha]

/-- Membership after `n` iterated toggles equals the initial membership
exactly when `n` is even. -/
theorem toggleFavoriteIter_mem (a : String) (n : Nat) :
    ∀ s : GalleryState,
      (a ∈ (toggleFavoriteIter a n s).favorites ↔ (a ∈ s.favorites ↔ n % 2 = 0)) := by
  induction n with
  | zero => intro s; simp [toggleFavoriteIter]
  | succ n ih =>
      intro s
      rw [show toggleFavoriteIter a (n + 1) s = toggleFavoriteIter a n (toggleFavorite a s)
        from rfl]
      rw [ih (toggleFavorite a s), toggleFavorite_mem_flip]
      by_cases hp : a ∈ s.favorites <;> simp [hp] <;> omega

/-- C1: counterexample. The image grid's single-item move-to-deleted operation
`markAsDeleted` does not remove its argument from the favorites list: starting
from a state where `"a"` is a favorite, after `markAsDeleted "a"` the
identifier `"a"` is in the deleted list but is STILL in the favorites list,
contradicting the claim that after the single-item move-to-deleted operation
the asset is not a member of the favorites set. -/
theorem markAsDeleted_keeps_favorite_counterexample :
    (toggleFavorite "a" initialState).favorites = ["a"] ∧
    (markAsDeleted "a" (toggleFavorite "a" initialState)).deletedItems.contains "a" = true ∧
    (markAsDeleted "a" (toggleFavorite "a" initialState)).favorites.contains "a" = true := by
  decide

/-- C1 (amended): the image viewer's `moveToDeleted` does satisfy the claim —
after it completes its argument is in the deleted list and not in the
favorites list, regardless of prior favorites membership — while the image
grid's `markAsDeleted` only adds to the deleted list and leaves the favorites
list exactly as it was. -/
theorem moveToDeleted_deleted_and_unfavorited (a : String) (s : GalleryState) :
    a ∈ (moveToDeleted a s).deletedItems ∧
    a ∉ (moveToDeleted a s).favorites ∧
    a ∈ (markAsDeleted a s).deletedItems ∧
    (markAsDeleted a s).favorites = s.favorites := by
  refine ⟨?_, ?_, ?_, rfl⟩
  · simp only [moveToDeleted]
    by_cases h : s.deletedItems.contains a = true
    · simp only [if_pos h]
      exact contains_eq_true_iff.mp h
    · simp only [if_neg h]
      simp
  · simp only [moveToDeleted]
    by_cases h : s.favorites.contains a = true
    · simp only [if_pos h]
      simp [mem_filter_bne]
    · simp only [if_neg h]
      exact fun hm => h (contains_eq_true_iff.mpr hm)
  · simp [markAsDeleted]

/-- C2: counterexample. The no-duplicates invariant does not hold for every
operation sequence: `markAsDeleted` appends unconditionally, so applying it
twice to the same identifier leaves a duplicate in the deleted list, and
`addToHidden` filters its input only against the old hidden list, so a
duplicated input leaves a duplicate in the hidden list. -/
theorem duplicate_entries_counterexample :
    (runOps [Op.markDel "a", Op.markDel "a"] initialState).deletedItems = ["a", "a"] ∧
    ¬ (runOps [Op.markDel "a", Op.markDel "a"] initialState).deletedItems.Nodup ∧
    (runOps [Op.addHidden ["x", "x"]] initialState).hiddenImages = ["x", "x"] ∧
    ¬ (runOps [Op.addHidden ["x", "x"]] initialState).hiddenImages.Nodup := by
  decide

/-- C2 (amended): starting from empty sets, any sequence of the listed
operations keeps the favorites, deleted and hidden lists free of duplicates,
provided every `markAsDeleted` step is applied to an identifier not already in
the deleted list and every `addToHidden` step receives a duplicate-free input
list; all other operations need no side condition. -/
theorem guarded_run_no_duplicates (ops : List Op)
    (hrun : GuardedRun initialState ops) :
    (runOps ops initialState).favorites.Nodup ∧
    (runOps ops initialState).deletedItems.Nodup ∧
    (runOps ops initialState).hiddenImages.Nodup :=
  guardedRun_sets_nodup hrun ⟨List.nodup_nil, List.nodup_nil, List.nodup_nil⟩

/-- C2 witness: a concrete guarded run exercising toggles, single and bulk
deletion, hiding and restoring, whose three resulting lists are
duplicate-free. -/
theorem guarded_run_no_duplicates_witness :
    (runOps [Op.toggleFav "a", Op.markDel "a", Op.addHidden ["x", "y"],
      Op.moveManyDel ["a", "b"], Op.restoreDel "b", Op.removeHidden "x"]
      initialState).favorites.Nodup ∧
    (runOps [Op.toggleFav "a", Op.markDel "a", Op.addHidden ["x", "y"],
      Op.moveManyDel ["a", "b"], Op.restoreDel "b", Op.removeHidden "x"]
      initialState).deletedItems.Nodup ∧
    (runOps [Op.toggleFav "a", Op.markDel "a", Op.addHidden ["x", "y"],
      Op.moveManyDel ["a", "b"], Op.restoreDel "b", Op.removeHidden "x"]
      initialState).hiddenImages.Nodup :=
  guarded_run_no_duplicates _
    (GuardedRun.cons (by decide)
      (GuardedRun.cons (by decide)
        (GuardedRun.cons (by decide)
          (GuardedRun.cons (by decide)
            (GuardedRun.cons (by decide)
              (GuardedRun.cons (by decide) (GuardedRun.nil _)))))))

/-- C3: after `setPasscode c` the stored secret verifies exactly against `c`
and against no other string, and after `resetPasscode` there is no passcode
and nothing verifies. -/
theorem passcode_roundtrip (c c' x : String) (s : GalleryState) (hne : c' ≠ c) :
    verifyPasscode c (setPasscode c s) = true ∧
    verifyPasscode c' (setPasscode c s) = false ∧
    hasPasscode (resetPasscode s) = false ∧
    verifyPasscode x (resetPasscode s) = false := by
  refine ⟨?_, ?_, rfl, rfl⟩
  · simp [verifyPasscode, setPasscode]
  · have hcc : c ≠ c' := fun he => hne he.symm
    simp [verifyPasscode, setPasscode, hcc]

/-- C3 witness. -/
theorem passcode_roundtrip_witness :
    verifyPasscode "1234" (setPasscode "1234" initialState) = true ∧
    verifyPasscode "0000" (setPasscode "1234" initialState) = false ∧
    hasPasscode (resetPasscode initialState) = false ∧
    verifyPasscode "0000" (resetPasscode initialState) = false :=
  passcode_roundtrip "1234" "0000" "0000" initialState (by decide)

/-- C4: counterexample. `addMultipleToFavorites` reports the length of its
input, not the number of identifiers actually added: on a state whose
favorites list is `["a"]`, adding `["a", "b"]` reports 2 to the user although
only one identifier (`"b"`) was actually added. -/
theorem addMany_reported_count_counterexample :
    (toggleFavorite "a" initialState).favorites = ["a"] ∧
    (addMultipleToFavorites ["a", "b"] (toggleFavorite "a" initialState)).1.favorites
      = ["a", "b"] ∧
    (addMultipleToFavorites ["a", "b"] (toggleFavorite "a" initialState)).2 = 2 ∧
    (addMultipleToFavorites ["a", "b"] (toggleFavorite "a" initialState)).2 ≠
      (addMultipleToFavorites ["a", "b"] (toggleFavorite "a" initialState)).1.favorites.length
        - (toggleFavorite "a" initialState).favorites.length := by
  decide

/-- C4 (amended): `addMultipleToFavorites` adds exactly the identifiers not
already present (set union, no duplicates created even for duplicated input),
but the count it reports to the user is the length of the given input list,
not the number of identifiers actually added. -/
theorem addMany_union_and_reported_count (ids : List String) (s : GalleryState) :
    (∀ x, x ∈ (addMultipleToFavorites ids s).1.favorites ↔
      x ∈ s.favorites ∨ x ∈ ids) ∧
    (s.favorites.Nodup → (addMultipleToFavorites ids s).1.favorites.Nodup) ∧
    (addMultipleToFavorites ids s).2 = ids.length :=
  ⟨fun x => mem_addIfAbsent_foldl ids s.favorites x,
   fun h => nodup_addIfAbsent_foldl ids s.favorites h,
   rfl⟩

/-- C4 witness: the duplicated input `["a", "a", "b"]` on the empty state
yields a duplicate-free favorites list containing `"a"` and `"b"`, and the
reported count is the input length 3. -/
theorem addMany_union_and_reported_count_witness :
    ("a" ∈ (addMultipleToFavorites ["a", "a", "b"] initialState).1.favorites) ∧
    (addMultipleToFavorites ["a", "a", "b"] initialState).1.favorites.Nodup ∧
    (addMultipleToFavorites ["a", "a", "b"] initialState).2 = 3 :=
  ⟨(addMany_union_and_reported_count ["a", "a", "b"] initialState).1 "a"
      |>.mpr (Or.inr (by decide)),
   (addMany_union_and_reported_count ["a", "a", "b"] initialState).2.1 (by decide),
   (addMany_union_and_reported_count ["a", "a", "b"] initialState).2.2⟩

/-- C5: the category query keeps exactly the assets selected by the claimed
membership condition for each of the four categories, always as an
order-preserving subsequence of the fetched asset sequence, and the concrete
scenario from the specification evaluates as claimed. -/
theorem filterByCategory_spec (assets : List String) (s : GalleryState) :
    (List.Sublist (filterByCategory "all" assets s) assets ∧
      ∀ x, x ∈ filterByCategory "all" assets s ↔
        x ∈ assets ∧ x ∉ s.deletedItems ∧ x ∉ s.hiddenImages) ∧
    (List.Sublist (filterByCategory "favorites" assets s) assets ∧
      ∀ x, x ∈ filterByCategory "favorites" assets s ↔
        x ∈ assets ∧ x ∈ s.favorites) ∧
    (List.Sublist (filterByCategory "deleted" assets s) assets ∧
      ∀ x, x ∈ filterByCategory "deleted" assets s ↔
        x ∈ assets ∧ x ∈ s.deletedItems) ∧
    (List.Sublist (filterByCategory "hidden" assets s) assets ∧
      ∀ x, x ∈ filterByCategory "hidden" assets s ↔
        x ∈ assets ∧ x ∈ s.hiddenImages) ∧
    filterByCategory "all" ["p1", "p2", "p3", "p4", "p5"]
      { initialState with deletedItems := ["p3"], hiddenImages := ["p4"] } =
      ["p1", "p2", "p5"] := by
  have hall : filterByCategory "all" assets s =
      assets.filter (fun id =>
        !(s.deletedItems.contains id) && !(s.hiddenImages.contains id)) := rfl
  have hfav : filterByCategory "favorites" assets s =
      assets.filter (fun id => s.favorites.contains id) := rfl
  have hdel : filterByCategory "deleted" assets s =
      assets.filter (fun id => s.deletedItems.contains id) := rfl
  have hhid : filterByCategory "hidden" assets s =
      assets.filter (fun id => s.hiddenImages.contains id) := rfl
  refine ⟨⟨?_, ?_⟩, ⟨?_, ?_⟩, ⟨?_, ?_⟩, ⟨?_, ?_⟩, by decide⟩
  · rw [hall]; exact List.filter_sublist assets
  · intro x
    rw [hall]
    simp [List.mem_filter, contains_eq_false_iff]
  · rw [hfav]; exact List.filter_sublist assets
  · intro x
    rw [hfav]
    simp [List.mem_filter, contains_eq_true_iff]
  · rw [hdel]; exact List.filter_sublist assets
  · intro x
    rw [hdel]
    simp [List.mem_filter, contains_eq_true_iff]
  · rw [hhid]; exact List.filter_sublist assets
  · intro x
    rw [hhid]
    simp [List.mem_filter, contains_eq_true_iff]

/-- C6: starting from a state where `a` is not a favorite, after `n`
successive `toggleFavorite a` calls the identifier `a` is a favorite exactly
when `n` is odd. -/
theorem toggleFavorite_parity (a : String) (s : GalleryState) (n : Nat)
    (h : a ∉ s.favorites) :
    a ∈ (toggleFavoriteIter a n s).favorites ↔ n % 2 = 1 := by
  rw [toggleFavoriteIter_mem a n s]
  simp only [h]
  constructor
  · intro hiff
    rcases Nat.mod_two_eq_zero_or_one n with hz | ho
    · exact (hiff.mpr hz).elim
    · exact ho
  · intro ho
    constructor
    · intro ha; exact ha.elim
    · intro hz; omega

/-- C6 witness: three toggles of `"a"` from the empty state leave `"a"` a
favorite, and three is odd. -/
theorem toggleFavorite_parity_witness :
    ("a" ∉ initialState.favorites) ∧
    ("a" ∈ (toggleFavoriteIter "a" 3 initialState).favorites ↔ 3 % 2 = 1) :=
  ⟨by decide, toggleFavorite_parity "a" initialState 3 (by decide)⟩

/-- C7: `restoreFromDeleted a` removes exactly `a` from the deleted list
(keeping every other identifier) and leaves the favorites list, hidden list,
passcode, theme and tab-bar flag exactly as they were, so a favorite
membership lost when the asset was moved to deleted is not regained. -/
theorem restoreFromDeleted_frame (a : String) (s : GalleryState) :
    a ∉ (restoreFromDeleted a s).deletedItems ∧
    (∀ b, b ∈ (restoreFromDeleted a s).deletedItems ↔ b ∈ s.deletedItems ∧ b ≠ a) ∧
    (restoreFromDeleted a s).favorites = s.favorites ∧
    (restoreFromDeleted a s).hiddenImages = s.hiddenImages ∧
    (restoreFromDeleted a s).passcode = s.passcode ∧
    (restoreFromDeleted a s).hasPasscodeFlag = s.hasPasscodeFlag ∧
    (restoreFromDeleted a s).theme = s.theme ∧
    (restoreFromDeleted a s).storedTheme = s.storedTheme ∧
    (restoreFromDeleted a s).isTabBarVisible = s.isTabBarVisible := by
  refine ⟨?_, fun b => mem_filter_bne, rfl, rfl, rfl, rfl, rfl, rfl, rfl⟩
  simp [restoreFromDeleted, mem_filter_bne]

/-- C8: counterexample. When the persistence write or removal fails,
`setPasscode` and `resetPasscode` catch and log the exception but resolve
normally: the outcome delivered to the awaiting caller is a plain success with
no failure indicator, so the failure is NOT surfaced to the caller as the
claim states (the promise does not reject and nothing inspectable reports the
failure). -/
theorem passcode_failure_not_surfaced_counterexample :
    setPasscodeOutcome (Except.error "storage write failed") = Except.ok () ∧
    (setPasscodeOutcome (Except.error "storage write failed")).isOk = true ∧
    resetPasscodeOutcome (Except.error "storage remove failed") = Except.ok () ∧
    (resetPasscodeOutcome (Except.error "storage remove failed")).isOk = true :=
  ⟨rfl, rfl, rfl, rfl⟩

/-- C8 (amended): `verifyPasscode` never throws — it returns `false` on any
persistence-read failure and otherwise compares against the stored secret —
and persistence-layer exceptions during `setPasscode` and `resetPasscode` are
caught and logged but NOT surfaced: the operation's promise resolves normally
in every case and the caller receives no failure indicator. -/
theorem passcode_error_handling (e c : String) (o o' : Except String Unit)
    (r : Except String (Option String)) :
    verifyPasscodeWith (Except.error e) c = false ∧
    (verifyPasscodeWith r c = false ∨ verifyPasscodeWith r c = true) ∧
    (setPasscodeOutcome o).isOk = true ∧
    (resetPasscodeOutcome o').isOk = true := by
  refine ⟨rfl, ?_, ?_, ?_⟩
  · cases hv : verifyPasscodeWith r c
    · exact Or.inl rfl
    · exact Or.inr rfl
  · cases o <;> rfl
  · cases o' <;> rfl

/-- C9: counterexample. `toggleTheme` flips the theme and persists it, but its
body has no return statement, so the value delivered to the awaiting caller is
`none` — not the new theme value as the claim states. -/
theorem toggleTheme_returns_nothing_counterexample :
    (toggleTheme initialState).1.theme = ColorScheme.light ∧
    (toggleTheme initialState).2 = none ∧
    (toggleTheme initialState).2 ≠ some ColorScheme.light := by
  refine ⟨rfl, rfl, ?_⟩
  decide

/-- C9 (amended): `toggleTheme` sets the theme to the other value and persists
the new value immediately (the stored preference equals the new in-memory
theme), but returns no value to the caller's awaiting context — the caller
observes the new theme through the shared state, not through the return
value; nothing else in the state changes. -/
theorem toggleTheme_flips_and_persists (s : GalleryState) :
    (toggleTheme s).1.theme ≠ s.theme ∧
    (toggleTheme s).1.storedTheme = some ((toggleTheme s).1.theme) ∧
    (toggleTheme s).2 = none ∧
    (toggleTheme s).1.favorites = s.favorites ∧
    (toggleTheme s).1.deletedItems = s.deletedItems ∧
    (toggleTheme s).1.hiddenImages = s.hiddenImages ∧
    (toggleTheme s).1.passcode = s.passcode ∧
    (toggleTheme s).1.hasPasscodeFlag = s.hasPasscodeFlag ∧
    (toggleTheme s).1.isTabBarVisible = s.isTabBarVisible := by
  refine ⟨?_, rfl, rfl, rfl, rfl, rfl, rfl, rfl, rfl⟩
  cases h : s.theme <;> simp [toggleTheme, h]

/-- C10: `toggleFavorite a` changes the favorites membership of `a` only —
every other identifier keeps its favorites membership — and the deleted list,
hidden list, passcode secret, passcode flag, theme, stored theme preference
and tab-bar flag are all unchanged. -/
theorem toggleFavorite_frame (a : String) (s : GalleryState) :
    (∀ b, b ≠ a → (b ∈ (toggleFavorite a s).favorites ↔ b ∈ s.favorites)) ∧
    (toggleFavorite a s).deletedItems = s.deletedItems ∧
    (toggleFavorite a s).hiddenImages = s.hiddenImages ∧
    (toggleFavorite a s).passcode = s.passcode ∧
    (toggleFavorite a s).hasPasscodeFlag = s.hasPasscodeFlag ∧
    (toggleFavorite a s).theme = s.theme ∧
    (toggleFavorite a s).storedTheme = s.storedTheme ∧
    (toggleFavorite a s).isTabBarVisible = s.isTabBarVisible := by
  constructor
  · intro b hb
    by_cases h : s.favorites.contains a = true
    · simp only [toggleFavorite, if_pos h]
      simp [mem_filter_bne, hb]
    · simp only [toggleFavorite, if_neg h]
      simp [hb]
  · by_cases h : s.favorites.contains a = true
    · have ha : a ∈ s.favorites := contains_eq_true_iff.mp h
      have e : toggleFavorite a s =
          { s with favorites := s.favorites.filter (fun id => id != a) } := by
        simp [toggleFavorite, h, ha]
      rw [e]
      exact ⟨rfl, rfl, rfl, rfl, rfl, rfl, rfl⟩
    · have ha : a ∉ s.favorites := fun hm => h (contains_eq_true_iff.mpr hm)
      have e : toggleFavorite a s = { s with favorites := s.favorites ++ [a] } := by
        simp [toggleFavorite, h, ha]
      rw [e]
      exact ⟨rfl, rfl, rfl, rfl, rfl, rfl, rfl⟩

/-- C10 witness: toggling `"a"` on a state where `"b"` is a favorite leaves
the membership of `"b"` and all other components unchanged. -/
theorem toggleFavorite_frame_witness :
    ("b" ∈ (toggleFavorite "a" (toggleFavorite "b" initialState)).favorites ↔
      "b" ∈ (toggleFavorite "b" initialState).favorites) ∧
    (toggleFavorite "a" (toggleFavorite "b" initialState)).deletedItems =
      (toggleFavorite "b" initialState).deletedItems :=
  ⟨(toggleFavorite_frame "a" (toggleFavorite "b" initialState)).1 "b" (by decide),
   (toggleFavorite_frame "a" (toggleFavorite "b" initialState)).2.1⟩

end SmartGallery
